import Mathlib

/-!
# Shallow embedding of the bio-link backend (src/server.py, src/api/index.py)

The repository is a FastAPI + MongoDB CRUD service with one `bio_profiles`
collection (expected singleton) and one `social_links` collection.  The two
source files implement the same handlers; `src/server.py` is taken as the
reference text.

The embedding models the Mongo database as a `Store`: two collections as
lists of documents in natural (insertion) order, plus a counter `nextId`
from which the store assigns fresh ObjectIds on insert.  ObjectIds are
modelled as `Nat`; the HTTP id path parameter is a `String` parsed by
`parseObjectId` exactly as `bson.ObjectId(link_id)` accepts a 24-character
hexadecimal string.  `datetime.utcnow()` is modelled as a `now : Nat`
parameter supplied to each operation (all stamps within one handler call
share that instant).  An HTTP handler is a function
`Store → Except HError α × Store`: the pair carries the response (or the
raised `HTTPException`) together with the post-call store, so frame
conditions about the store on error paths are statable.
-/

namespace Bio

/-- A document of the `bio_profiles` collection. -/
structure ProfileDoc where
  _id : Nat
  name : String
  description : String
  profile_image : String
  created_at : Nat
  updated_at : Nat
deriving DecidableEq, Repr

/-- A document of the `social_links` collection. -/
structure LinkDoc where
  _id : Nat
  profile_id : Nat
  title : String
  url : String
  icon_type : String
  order : Int
  created_at : Nat
deriving DecidableEq, Repr

/-- The database state: the two collections in natural order, and the
counter from which inserts draw fresh ObjectIds. -/
structure Store where
  bio_profiles : List ProfileDoc
  social_links : List LinkDoc
  nextId : Nat
deriving DecidableEq, Repr

/-- `HTTPException(status_code, detail)`, plus the failure mode where the
handler's final `find_one` unexpectedly returns `None` and the response
model cannot be built (provably unreachable in the theorems below). -/
inductive HError where
  | httpException (status : Nat) (detail : String)
  | responseInvalid
deriving DecidableEq, Repr

/-- Request body of `PUT /profile` (pydantic `BioProfileCreate`). -/
structure BioProfileCreate where
  name : String
  description : String
  profile_image : String
deriving DecidableEq, Repr

/-- Response model `BioProfile`: the document with `_id` rendered as `id`. -/
structure BioProfile where
  id : String
  name : String
  description : String
  profile_image : String
  created_at : Nat
  updated_at : Nat
deriving DecidableEq, Repr

/-- Request body of `POST /links` (pydantic `SocialLinkCreate`). -/
structure SocialLinkCreate where
  title : String
  url : String
  icon_type : String
  order : Int
deriving DecidableEq, Repr

/-- Request body of `PUT /links/{id}` (pydantic `SocialLinkUpdate`):
every field optional, defaulting to `None`. -/
structure SocialLinkUpdate where
  title : Option String := none
  url : Option String := none
  icon_type : Option String := none
  order : Option Int := none
deriving DecidableEq, Repr

/-- Response model `SocialLink`: the document with `_id` rendered as `id`
and `profile_id` dropped. -/
structure SocialLink where
  id : String
  title : String
  url : String
  icon_type : String
  order : Int
  created_at : Nat
deriving DecidableEq, Repr

/-- A hexadecimal digit, as accepted by `bson.ObjectId`. -/
def isHexDigit (c : Char) : Bool :=
  c.isDigit || (97 ≤ c.toNat && c.toNat ≤ 102) || (65 ≤ c.toNat && c.toNat ≤ 70)

/-- Numeric value of a hexadecimal digit. -/
def hexDigitVal (c : Char) : Nat :=
  if c.isDigit then c.toNat - 48
  else if 97 ≤ c.toNat then c.toNat - 87
  else c.toNat - 55

/-- `bson.ObjectId(s)` on a string argument: accepts exactly a 24-character
hexadecimal string, read big-endian; rejects everything else (the `except`
branch of the handlers). -/
def parseObjectId (s : String) : Option Nat :=
  if s.length = 24 && s.data.all isHexDigit then
    some (s.data.foldl (fun acc c => acc * 16 + hexDigitVal c) 0)
  else none

/-- Hexadecimal digit character (lowercase), for `str(ObjectId)`. -/
def hexChar (n : Nat) : Char :=
  if n < 10 then Char.ofNat (48 + n) else Char.ofNat (87 + n)

/-- `str(ObjectId)`: 24 lowercase hexadecimal digits, big-endian. -/
def renderObjectId (n : Nat) : String :=
  String.mk ((List.range 24).map (fun i => hexChar (n / 16 ^ (23 - i) % 16)))

/-- `convert_object_id` applied to a profile document: move `_id` to a
string `id` field. -/
def convert_profile (d : ProfileDoc) : BioProfile :=
  { id := renderObjectId d._id, name := d.name, description := d.description,
    profile_image := d.profile_image, created_at := d.created_at,
    updated_at := d.updated_at }

/-- `convert_object_id` applied to a link document: move `_id` to a string
`id` field (the `profile_id` field is absent from the response model). -/
def convert_link (d : LinkDoc) : SocialLink :=
  { id := renderObjectId d._id, title := d.title, url := d.url,
    icon_type := d.icon_type, order := d.order, created_at := d.created_at }

/-- `init_default_data()` (src/server.py lines 74-133): count the profile
documents; exactly when the count is zero, insert the fixed default profile
and then the five fixed default links, each stamped with the new profile's
`inserted_id`. -/
def init_default_data (now : Nat) (s : Store) : Store :=
  if s.bio_profiles.length = 0 then
    let profile_id := s.nextId
    let default_profile : ProfileDoc :=
      { _id := profile_id, name := "ZwQ", description := "Bio",
        profile_image := "https://i.pinimg.com/736x/1b/a1/3f/1ba13f9e183fb869f3999b954b25d949.jpg",
        created_at := now, updated_at := now }
    let default_links : List LinkDoc :=
      [ { _id := profile_id + 1, profile_id := profile_id, title := "Facebook",
          url := "https://facebook.com", icon_type := "facebook", order := 1,
          created_at := now },
        { _id := profile_id + 2, profile_id := profile_id, title := "Discord",
          url := "https://discord.com", icon_type := "discord", order := 2,
          created_at := now },
        { _id := profile_id + 3, profile_id := profile_id, title := "Steam",
          url := "https://steamcommunity.com", icon_type := "steam", order := 3,
          created_at := now },
        { _id := profile_id + 4, profile_id := profile_id, title := "GitHub",
          url := "https://github.com", icon_type := "github", order := 4,
          created_at := now },
        { _id := profile_id + 5, profile_id := profile_id, title := "YouTube",
          url := "https://youtube.com", icon_type := "youtube", order := 5,
          created_at := now } ]
    { bio_profiles := s.bio_profiles ++ [default_profile],
      social_links := s.social_links ++ default_links,
      nextId := s.nextId + 6 }
  else s

/-- Mongo `update_one(filter, $set)`: apply `f` to the first document of
the collection satisfying `p`; other documents untouched. -/
def update_first {α : Type} (p : α → Bool) (f : α → α) : List α → List α
  | [] => []
  | a :: as_ => if p a then f a :: as_ else a :: update_first p f as_

/-- Mongo `delete_one(filter)`: remove the first document satisfying `p`;
return the deleted count together with the remaining collection. -/
def delete_one {α : Type} (p : α → Bool) : List α → Nat × List α
  | [] => (0, [])
  | a :: as_ =>
    if p a then (1, as_)
    else
      let r := delete_one p as_
      (r.1, a :: r.2)

/-- `PUT /profile` — `update_profile` (src/server.py lines 150-165):
`find_one()` the profile (404 if none), `$set` the three body fields plus
`updated_at = utcnow()` on it, re-fetch by `_id` and return it. -/
def update_profile (pd : BioProfileCreate) (now : Nat) (s : Store) :
    Except HError BioProfile × Store :=
  match s.bio_profiles.head? with
  | none => (.error (.httpException 404 "Profile not found"), s)
  | some profile =>
    let set_fields : ProfileDoc → ProfileDoc := fun p =>
      { p with name := pd.name, description := pd.description,
               profile_image := pd.profile_image, updated_at := now }
    let profiles2 :=
      update_first (fun p => p._id == profile._id) set_fields s.bio_profiles
    let s2 : Store := { s with bio_profiles := profiles2 }
    match s2.bio_profiles.find? (fun p => p._id == profile._id) with
    | none => (.error .responseInvalid, s2)
    | some updated => (.ok (convert_profile updated), s2)

/-- Mongo `.sort("order", 1)` on the links collection: a sort ascending by
the `order` field (insertion sort; any sorted permutation is a faithful
model of the store's sort). -/
def sortLinks (ls : List LinkDoc) : List LinkDoc :=
  List.insertionSort (fun a b => a.order ≤ b.order) ls

/-- `GET /links` — `get_links` (src/server.py lines 168-171):
`find().sort("order", 1).to_list(100)`, then `convert_object_id` each. -/
def get_links (s : Store) : List SocialLink :=
  ((sortLinks s.social_links).take 100).map convert_link

/-- The document `create_link` builds before insertion (`new_link` in the
source): the body fields plus the stamped `profile_id` and `created_at`,
with the store-assigned id. -/
def new_link (ld : SocialLinkCreate) (profile_id nid now : Nat) : LinkDoc :=
  { _id := nid, profile_id := profile_id, title := ld.title, url := ld.url,
    icon_type := ld.icon_type, order := ld.order, created_at := now }

/-- `POST /links` — `create_link` (src/server.py lines 174-186):
`find_one()` the profile (404 if none), stamp `profile_id` and
`created_at`, `insert_one` (the store assigns `nextId` as the fresh
ObjectId), re-fetch by the inserted id and return it. -/
def create_link (ld : SocialLinkCreate) (now : Nat) (s : Store) :
    Except HError SocialLink × Store :=
  match s.bio_profiles.head? with
  | none => (.error (.httpException 404 "Profile not found"), s)
  | some profile =>
    let nl : LinkDoc := new_link ld profile._id s.nextId now
    let s2 : Store :=
      { s with social_links := s.social_links ++ [nl],
               nextId := s.nextId + 1 }
    match s2.social_links.find? (fun l => l._id == nl._id) with
    | none => (.error .responseInvalid, s2)
    | some created => (.ok (convert_link created), s2)

/-- The `{k: v for k, v in link_data.dict().items() if v is not None}`
filter followed by `$set`: each field present (non-`None`) in the body
overwrites the document's field; absent fields keep their value. -/
def apply_set (ud : SocialLinkUpdate) (l : LinkDoc) : LinkDoc :=
  { l with title := ud.title.getD l.title,
           url := ud.url.getD l.url,
           icon_type := ud.icon_type.getD l.icon_type,
           order := ud.order.getD l.order }

/-- The `if update_data:` truthiness test: some field of the body is
present (non-`None`). -/
def hasUpdates (ud : SocialLinkUpdate) : Bool :=
  ud.title.isSome || ud.url.isSome || ud.icon_type.isSome || ud.order.isSome

/-- `PUT /links/{link_id}` — `update_link` (src/server.py lines 189-209):
parse the id (400 if malformed), `find_one` by `_id` (404 if absent),
`$set` the non-`None` fields when any exist, re-fetch and return. -/
def update_link (link_id : String) (ud : SocialLinkUpdate) (s : Store) :
    Except HError SocialLink × Store :=
  match parseObjectId link_id with
  | none => (.error (.httpException 400 "Invalid link ID"), s)
  | some oid =>
    match s.social_links.find? (fun l => l._id == oid) with
    | none => (.error (.httpException 404 "Link not found"), s)
    | some _ =>
      let links2 :=
        update_first (fun l => l._id == oid) (apply_set ud) s.social_links
      let s2 : Store :=
        if hasUpdates ud then { s with social_links := links2 } else s
      match s2.social_links.find? (fun l => l._id == oid) with
      | none => (.error .responseInvalid, s2)
      | some updated => (.ok (convert_link updated), s2)

/-- `DELETE /links/{link_id}` — `delete_link` (src/server.py lines
212-223): parse the id (400 if malformed), `delete_one` by `_id`, 404 when
the deleted count is zero, else a success message. -/
def delete_link (link_id : String) (s : Store) :
    Except HError String × Store :=
  match parseObjectId link_id with
  | none => (.error (.httpException 400 "Invalid link ID"), s)
  | some oid =>
    let r := delete_one (fun l => l._id == oid) s.social_links
    let s2 : Store := { s with social_links := r.2 }
    if r.1 = 0 then (.error (.httpException 404 "Link not found"), s2)
    else (.ok "Link deleted successfully", s2)

/-- All ObjectIds held by documents of the store. -/
def allIds (s : Store) : List Nat :=
  s.bio_profiles.map (fun p => p._id) ++ s.social_links.map (fun l => l._id)

/-- Store well-formedness: every stored ObjectId is below the counter, so
the counter value is fresh.  Every store reachable from the empty store by
the operations above satisfies it. -/
def WF (s : Store) : Prop :=
  ∀ i ∈ allIds s, i < s.nextId

instance (s : Store) : Decidable (WF s) :=
  inferInstanceAs (Decidable (∀ i ∈ allIds s, i < s.nextId))

/-- The empty store (fresh database). -/
def store0 : Store := { bio_profiles := [], social_links := [], nextId := 0 }

/-- The store produced by running the seeder on the empty store at time 7:
one profile (id 0) and the five default links (ids 1-5). -/
def seeded : Store := init_default_data 7 store0

/-- A store already holding one profile and one hundred links (ids 1-100,
all with `order` 0), at the `listLinks` cap. -/
def cexStore : Store :=
  { bio_profiles := [{ _id := 0, name := "N", description := "D",
                       profile_image := "I", created_at := 0, updated_at := 0 }],
    social_links := (List.range 100).map
      (fun i => { _id := i + 1, profile_id := 0, title := "L", url := "u",
                  icon_type := "l", order := 0, created_at := 0 }),
    nextId := 101 }

instance : IsTotal LinkDoc (fun a b => a.order ≤ b.order) :=
  ⟨fun a b => Int.le_total a.order b.order⟩

instance : IsTrans LinkDoc (fun a b => a.order ≤ b.order) :=
  ⟨fun _ _ _ hab hbc => le_trans hab hbc⟩

/-! ## Helper lemmas -/

theorem delete_one_of_no_match {α : Type} (p : α → Bool) :
    ∀ ls : List α, (∀ a ∈ ls, p a = false) → delete_one p ls = (0, ls) := by
  intro ls
  induction ls with
  | nil => intro _; rfl
  | cons a as_ ih =>
    intro h
    have ha : p a = false := h a (List.mem_cons_self a as_)
    have rest := ih (fun x hx => h x (List.mem_cons_of_mem a hx))
    simp [delete_one, ha, rest]

theorem delete_one_split {α : Type} (p : α → Bool) (a : α) :
    ∀ pre post : List α, (∀ x ∈ pre, p x = false) → p a = true →
      delete_one p (pre ++ a :: post) = (1, pre ++ post) := by
  intro pre
  induction pre with
  | nil => intro post _ hpa; simp [delete_one, hpa]
  | cons b bs ih =>
    intro post h hpa
    have hb : p b = false := h b (List.mem_cons_self b bs)
    have rest := ih post (fun x hx => h x (List.mem_cons_of_mem b hx)) hpa
    simp [delete_one, hb, rest]

theorem update_first_eq_map (oid : Nat) (f : LinkDoc → LinkDoc) :
    ∀ ls : List LinkDoc, (ls.map (fun l => l._id)).Nodup →
      update_first (fun l => l._id == oid) f ls =
        ls.map (fun l => if l._id == oid then f l else l) := by
  intro ls
  induction ls with
  | nil => intro _; rfl
  | cons a as_ ih =>
    intro hn
    rw [List.map_cons, List.nodup_cons] at hn
    obtain ⟨ha, hn'⟩ := hn
    by_cases h : a._id = oid
    · have hpa : (a._id == oid) = true := by simpa using h
      have hmap : as_.map (fun l => if l._id == oid then f l else l) = as_ := by
        have hpt : ∀ l ∈ as_, (if l._id == oid then f l else l) = l := by
          intro l hl
          have hne : l._id ≠ oid := by
            intro he
            exact ha (h ▸ he ▸ List.mem_map_of_mem (fun l => l._id) hl)
          rw [if_neg (by simpa using hne)]
        calc as_.map (fun l => if l._id == oid then f l else l)
            = as_.map id := List.map_congr_left (fun l hl => hpt l hl)
          _ = as_ := List.map_id as_
      simp only [update_first, List.map_cons]
      rw [if_pos hpa, if_pos hpa, hmap]
    · have hpb : ¬((a._id == oid) = true) := by simp [h]
      simp only [update_first, List.map_cons]
      rw [if_neg hpb, if_neg hpb, ih hn']

theorem find?_of_map_if (oid : Nat) (f : LinkDoc → LinkDoc)
    (hf : ∀ l, (f l)._id = l._id) (ls : List LinkDoc) (link : LinkDoc)
    (hfind : ls.find? (fun l => l._id == oid) = some link) :
    (ls.map (fun l => if l._id == oid then f l else l)).find?
      (fun l => l._id == oid) = some (f link) := by
  have hkey : ∀ l : LinkDoc,
      ((if l._id == oid then f l else l)._id == oid) = (l._id == oid) := by
    intro l
    by_cases h : l._id = oid <;> simp [h, hf]
  rw [List.find?_map]
  have hcomp : ((fun l : LinkDoc => l._id == oid) ∘
      fun l => if l._id == oid then f l else l) = fun l => l._id == oid := by
    funext l
    simpa using hkey l
  rw [hcomp, hfind]
  have hlink : link._id = oid := by
    have hp := List.find?_some (p := fun l : LinkDoc => l._id == oid) hfind
    simpa using hp
  simp [Option.map_some, hlink]

theorem find?_append_of_no_match {α : Type} (p : α → Bool) (ms : List α) :
    ∀ ls : List α, (∀ x ∈ ls, p x = false) → (ls ++ ms).find? p = ms.find? p := by
  intro ls
  induction ls with
  | nil => intro _; rfl
  | cons a as_ ih =>
    intro h
    have ha : p a = false := h a (List.mem_cons_self a as_)
    have rest := ih (fun x hx => h x (List.mem_cons_of_mem a hx))
    simp [List.cons_append, List.find?_cons_of_neg, ha, rest]

/-! ## Claims -/

/-- **C1.** For every store state with zero Profile documents, the seeder
`init_default_data` inserts exactly one Profile (the fixed default) and
then exactly five Links titled Facebook, Discord, Steam, GitHub, YouTube
with `order` 1-5 and `icon_type` the lowercase platform name, each link's
`profile_id` equal to the new profile's identity; for every store state
with a nonzero Profile count it inserts nothing. -/
theorem claim1_seed_inserts_defaults (s : Store) (now : Nat) :
    (s.bio_profiles.length = 0 →
      init_default_data now s =
        { bio_profiles := [{ _id := s.nextId, name := "ZwQ", description := "Bio",
                             profile_image := "https://i.pinimg.com/736x/1b/a1/3f/1ba13f9e183fb869f3999b954b25d949.jpg",
                             created_at := now, updated_at := now }],
          social_links := s.social_links ++
            [ { _id := s.nextId + 1, profile_id := s.nextId, title := "Facebook",
                  url := "https://facebook.com", icon_type := "facebook", order := 1,
                  created_at := now },
              { _id := s.nextId + 2, profile_id := s.nextId, title := "Discord",
                  url := "https://discord.com", icon_type := "discord", order := 2,
                  created_at := now },
              { _id := s.nextId + 3, profile_id := s.nextId, title := "Steam",
                  url := "https://steamcommunity.com", icon_type := "steam", order := 3,
                  created_at := now },
              { _id := s.nextId + 4, profile_id := s.nextId, title := "GitHub",
                  url := "https://github.com", icon_type := "github", order := 4,
                  created_at := now },
              { _id := s.nextId + 5, profile_id := s.nextId, title := "YouTube",
                  url := "https://youtube.com", icon_type := "youtube", order := 5,
                  created_at := now } ],
          nextId := s.nextId + 6 }) ∧
    (s.bio_profiles.length ≠ 0 → init_default_data now s = s) := by
  constructor
  · intro h
    have h0 : s.bio_profiles = [] := List.length_eq_zero.mp h
    simp [init_default_data, h0]
  · intro h
    simp [init_default_data, h]

/-- Witness for C1: both branches at concrete stores. -/
theorem claim1_witness :
    init_default_data 7 store0 = seeded ∧ init_default_data 9 seeded = seeded :=
  ⟨(claim1_seed_inserts_defaults store0 7).1 rfl,
   (claim1_seed_inserts_defaults seeded 9).2 (by decide)⟩

/-- **C2.** Seeding is idempotent: running it twice (at any two times)
yields the same store as running it once, and the Profile count after
seeding never exceeds `max` of the previous count and one (so seeding
never contributes a second Profile). -/
theorem claim2_seed_idempotent (s : Store) (now now2 : Nat) :
    init_default_data now2 (init_default_data now s) = init_default_data now s ∧
    (init_default_data now s).bio_profiles.length ≤ max s.bio_profiles.length 1 := by
  by_cases h : s.bio_profiles.length = 0
  · have h0 : s.bio_profiles = [] := List.length_eq_zero.mp h
    constructor
    · simp [init_default_data, h0]
    · simp [init_default_data, h0]
  · constructor
    · simp [init_default_data, h]
    · simp [init_default_data, h]

/-- **C6.** For every store state containing no Profile document,
`create_link` fails with 404 NotFound and leaves the store unchanged. -/
theorem claim6_create_link_no_profile (ld : SocialLinkCreate) (now : Nat)
    (s : Store) (h : s.bio_profiles = []) :
    create_link ld now s = (.error (.httpException 404 "Profile not found"), s) := by
  simp [create_link, h]

/-- Witness for C6 at the empty store. -/
theorem claim6_witness :
    create_link { title := "T", url := "https://t", icon_type := "t", order := 1 }
      5 store0 = (.error (.httpException 404 "Profile not found"), store0) :=
  claim6_create_link_no_profile _ 5 store0 rfl

/-- **C5.** `delete_link` distinguishes its two failures: a path id that
does not parse as an ObjectId yields 400 InvalidArgument with the store
untouched; a well-formed id matching no Link yields 404 NotFound with the
store untouched; the two outcomes differ.  On success the first matching
document is removed and a success message is returned. -/
theorem claim5_delete_link_errors (idStr : String) (s : Store) :
    (parseObjectId idStr = none →
      delete_link idStr s = (.error (.httpException 400 "Invalid link ID"), s)) ∧
    (∀ oid : Nat, parseObjectId idStr = some oid →
      ((∀ l ∈ s.social_links, l._id ≠ oid) →
        delete_link idStr s = (.error (.httpException 404 "Link not found"), s)) ∧
      (∀ pre a post, s.social_links = pre ++ a :: post →
        (∀ x ∈ pre, x._id ≠ oid) → a._id = oid →
        delete_link idStr s =
          (.ok "Link deleted successfully", { s with social_links := pre ++ post }))) ∧
    HError.httpException 400 "Invalid link ID" ≠
      HError.httpException 404 "Link not found" := by
  refine ⟨?_, fun oid hoid => ⟨?_, ?_⟩, by decide⟩
  · intro h
    simp [delete_link, h]
  · intro h
    have hno : ∀ l ∈ s.social_links, (fun l : LinkDoc => l._id == oid) l = false := by
      intro l hl
      simpa using h l hl
    have hd := delete_one_of_no_match (fun l : LinkDoc => l._id == oid) s.social_links hno
    simp [delete_link, hoid, hd]
  · intro pre a post hsplit hpre hpa
    have hpre' : ∀ x ∈ pre, (fun l : LinkDoc => l._id == oid) x = false := by
      intro x hx
      simpa using hpre x hx
    have hd := delete_one_split (fun l : LinkDoc => l._id == oid) a pre post hpre'
      (by simpa using hpa)
    simp [delete_link, hoid, hsplit, hd]

/-- Witness for C5: the three outcomes on the seeded store. -/
theorem claim5_witness :
    delete_link "zz" seeded = (.error (.httpException 400 "Invalid link ID"), seeded) ∧
    delete_link "0000000000000000000000ff" seeded =
      (.error (.httpException 404 "Link not found"), seeded) ∧
    (delete_link "000000000000000000000001" seeded).1 = .ok "Link deleted successfully" :=
  ⟨(claim5_delete_link_errors "zz" seeded).1 (by decide),
   ((claim5_delete_link_errors "0000000000000000000000ff" seeded).2.1 255 (by decide)).1
     (by decide),
   by
    have h := ((claim5_delete_link_errors "000000000000000000000001" seeded).2.1 1
        (by decide)).2 [] { _id := 1, profile_id := 0, title := "Facebook",
                            url := "https://facebook.com", icon_type := "facebook",
                            order := 1, created_at := 7 }
        (seeded.social_links.tail) (by decide) (by decide) rfl
    rw [h]⟩

/-- **C7.** `get_links` returns the Link documents sorted ascending by
`order`, capped at 100 items: the output is pairwise sorted, its length is
`min` of the link count and 100, and whenever the store holds at most 100
links it is a permutation of (all) the stored links — for every store,
hence regardless of insertion order. -/
theorem claim7_list_links_sorted (s : Store) :
    List.Pairwise (fun a b : SocialLink => a.order ≤ b.order) (get_links s) ∧
    (get_links s).length = min s.social_links.length 100 ∧
    (s.social_links.length ≤ 100 →
      (get_links s).Perm (s.social_links.map convert_link)) := by
  have hperm : (sortLinks s.social_links).Perm s.social_links :=
    List.perm_insertionSort (fun a b : LinkDoc => a.order ≤ b.order) s.social_links
  have hsorted : List.Pairwise (fun a b : LinkDoc => a.order ≤ b.order)
      (sortLinks s.social_links) :=
    List.sorted_insertionSort (fun a b : LinkDoc => a.order ≤ b.order) s.social_links
  refine ⟨?_, ?_, ?_⟩
  · exact (hsorted.take).map convert_link (fun a b hab => hab)
  · have hlen : (sortLinks s.social_links).length = s.social_links.length :=
      hperm.length_eq
    simp [get_links, List.length_take, hlen, Nat.min_comm]
  · intro hle
    have hlen : (sortLinks s.social_links).length ≤ 100 := by
      rw [hperm.length_eq]
      exact hle
    have htake : (sortLinks s.social_links).take 100 = sortLinks s.social_links :=
      List.take_of_length_le hlen
    rw [get_links, htake]
    exact hperm.map convert_link

/-- Witness for C7: the cap-permutation branch at the seeded store. -/
theorem claim7_witness :
    (get_links seeded).Perm (seeded.social_links.map convert_link) :=
  (claim7_list_links_sorted seeded).2.2 (by decide)

/-- **C3.** When a Link with well-formed identity exists (and ids are
unique, as the store's `_id` index guarantees), `update_link` applies
exactly the present (non-null) body fields to that document — each field's
new value is `getD` of the body field over the old value, so absent fields
keep their previous values — while `_id`, `profile_id`, `created_at`, the
other link documents, the profiles and the id counter are unchanged. -/
theorem claim3_update_link_merge (idStr : String) (ud : SocialLinkUpdate)
    (s : Store) (oid : Nat) (link : LinkDoc)
    (hid : parseObjectId idStr = some oid)
    (hfind : s.social_links.find? (fun l => l._id == oid) = some link)
    (hn : (s.social_links.map (fun l => l._id)).Nodup) :
    update_link idStr ud s =
      (.ok (convert_link (apply_set ud link)),
        { s with social_links :=
            s.social_links.map (fun l => if l._id == oid then apply_set ud l else l) }) ∧
    (apply_set ud link).title = ud.title.getD link.title ∧
    (apply_set ud link).url = ud.url.getD link.url ∧
    (apply_set ud link).icon_type = ud.icon_type.getD link.icon_type ∧
    (apply_set ud link).order = ud.order.getD link.order ∧
    (apply_set ud link)._id = link._id ∧
    (apply_set ud link).profile_id = link.profile_id ∧
    (apply_set ud link).created_at = link.created_at := by
  refine ⟨?_, rfl, rfl, rfl, rfl, rfl, rfl, rfl⟩
  by_cases hu : hasUpdates ud = true
  · have hmap := update_first_eq_map oid (apply_set ud) s.social_links hn
    have hfind2 := find?_of_map_if oid (apply_set ud) (fun l => rfl)
      s.social_links link hfind
    rw [← hmap] at hfind2
    unfold update_link
    rw [hid]
    dsimp only
    rw [hfind]
    dsimp only
    rw [if_pos hu, hfind2]
    dsimp only
    rw [hmap]
  · have hbf : hasUpdates ud = false := by
      cases hh : hasUpdates ud
      · rfl
      · exact absurd hh hu
    obtain ⟨t, u, i, o⟩ := ud
    cases t <;> cases u <;> cases i <;> cases o <;>
      (try (simp [hasUpdates] at hbf))
    have hone : s.social_links.map
        (fun l => if l._id == oid then
          apply_set { title := none, url := none, icon_type := none, order := none } l
        else l) = s.social_links := by
      have hpt : ∀ l ∈ s.social_links, (if l._id == oid then
          apply_set { title := none, url := none, icon_type := none, order := none } l
        else l) = l := by
        intro l _
        by_cases hc : (l._id == oid) = true
        · rw [if_pos hc]
          rfl
        · rw [if_neg hc]
      calc s.social_links.map (fun l => if l._id == oid then
              apply_set { title := none, url := none, icon_type := none, order := none } l
            else l)
          = s.social_links.map id := List.map_congr_left (fun l hl => hpt l hl)
        _ = s.social_links := List.map_id s.social_links
    unfold update_link
    rw [hid]
    dsimp only
    rw [hfind]
    dsimp only
    rw [if_neg (by simp [hasUpdates]), hfind]
    dsimp only
    rw [hone]
    rfl

/-- Witness for C3: updating only `order` to 9 on the seeded Facebook link
changes only `order`. -/
theorem claim3_witness :
    update_link "000000000000000000000001" { order := some 9 } seeded =
      (.ok { id := renderObjectId 1, title := "Facebook",
             url := "https://facebook.com", icon_type := "facebook", order := 9,
             created_at := 7 },
       { seeded with social_links :=
           seeded.social_links.map (fun l => if l._id == 1 then apply_set { order := some 9 } l else l) }) := by
  have h := (claim3_update_link_merge "000000000000000000000001"
      { order := some 9 } seeded 1
      { _id := 1, profile_id := 0, title := "Facebook", url := "https://facebook.com",
        icon_type := "facebook", order := 1, created_at := 7 }
      (by decide) (by decide) (by decide)).1
  rw [h]
  rfl

/-- **C4.** When a Link with well-formed identity exists, `update_link`
with the empty partial body leaves the store unchanged and returns the
current document. -/
theorem claim4_update_link_empty (idStr : String) (s : Store) (oid : Nat)
    (link : LinkDoc) (hid : parseObjectId idStr = some oid)
    (hfind : s.social_links.find? (fun l => l._id == oid) = some link) :
    update_link idStr {} s = (.ok (convert_link link), s) := by
  simp [update_link, hid, hfind, hasUpdates]

/-- Witness for C4: the empty-body update of the seeded Facebook link. -/
theorem claim4_witness :
    update_link "000000000000000000000001" {} seeded =
      (.ok { id := renderObjectId 1, title := "Facebook",
             url := "https://facebook.com", icon_type := "facebook", order := 1,
             created_at := 7 }, seeded) := by
  have h := claim4_update_link_empty "000000000000000000000001" seeded 1
      { _id := 1, profile_id := 0, title := "Facebook", url := "https://facebook.com",
        icon_type := "facebook", order := 1, created_at := 7 }
      (by decide) (by decide)
  rw [h]
  rfl

theorem update_profile_cons (pd : BioProfileCreate) (now : Nat) (s : Store)
    (p : ProfileDoc) (rest : List ProfileDoc) (h : s.bio_profiles = p :: rest) :
    update_profile pd now s =
      (.ok (convert_profile { p with name := pd.name, description := pd.description,
                                     profile_image := pd.profile_image, updated_at := now }),
       { s with bio_profiles :=
           ({ p with name := pd.name, description := pd.description, profile_image := pd.profile_image, updated_at := now }) :: rest }) := by
  unfold update_profile
  rw [h]
  dsimp only [List.head?]
  rw [update_first]
  rw [if_pos (by simp)]
  rw [List.find?_cons_of_pos _ (by simp)]

/-- **C8.** `update_profile` (replaceProfile) fails with 404 NotFound when
no Profile document exists; when one exists it overwrites exactly `name`,
`description` and `profile_image` with the inputs, sets `updated_at` to
the current time, and returns the updated document. -/
theorem claim8_replace_profile (pd : BioProfileCreate) (now : Nat) (s : Store) :
    (s.bio_profiles = [] →
      update_profile pd now s = (.error (.httpException 404 "Profile not found"), s)) ∧
    (∀ p rest, s.bio_profiles = p :: rest →
      update_profile pd now s =
        (.ok { id := renderObjectId p._id, name := pd.name,
               description := pd.description, profile_image := pd.profile_image,
               created_at := p.created_at, updated_at := now },
         { s with bio_profiles :=
             ({ p with name := pd.name, description := pd.description, profile_image := pd.profile_image, updated_at := now }) :: rest })) := by
  constructor
  · intro h
    simp [update_profile, h]
  · intro p rest h
    exact update_profile_cons pd now s p rest h

/-- Witness for C8: both branches at concrete stores. -/
theorem claim8_witness :
    update_profile { name := "A", description := "B", profile_image := "C" } 9 store0 =
      (.error (.httpException 404 "Profile not found"), store0) ∧
    (update_profile { name := "A", description := "B", profile_image := "C" } 9
        seeded).1 =
      .ok { id := renderObjectId 0, name := "A", description := "B",
            profile_image := "C", created_at := 7, updated_at := 9 } := by
  constructor
  · exact (claim8_replace_profile _ 9 store0).1 rfl
  · have h := (claim8_replace_profile
        { name := "A", description := "B", profile_image := "C" } 9 seeded).2
        { _id := 0, name := "ZwQ", description := "Bio",
          profile_image := "https://i.pinimg.com/736x/1b/a1/3f/1ba13f9e183fb869f3999b954b25d949.jpg",
          created_at := 7, updated_at := 7 } [] (by decide)
    rw [h]

/-- **C10.** `update_profile` (replaceProfile) preserves the Profile's
identity and `created_at`: the returned document and the stored document
keep `_id` and `created_at` from before the call, only `name`,
`description`, `profile_image` and `updated_at` being written. -/
theorem claim10_replace_profile_frame (pd : BioProfileCreate) (now : Nat)
    (s : Store) (p : ProfileDoc) (rest : List ProfileDoc)
    (h : s.bio_profiles = p :: rest) :
    ∃ q : ProfileDoc,
      update_profile pd now s =
        (.ok (convert_profile q), { s with bio_profiles := q :: rest }) ∧
      q._id = p._id ∧ q.created_at = p.created_at ∧
      q.name = pd.name ∧ q.description = pd.description ∧
      q.profile_image = pd.profile_image ∧ q.updated_at = now :=
  ⟨{ p with name := pd.name, description := pd.description, profile_image := pd.profile_image, updated_at := now },
   update_profile_cons pd now s p rest h, rfl, rfl, rfl, rfl, rfl, rfl⟩

/-- Witness for C10: the seeded profile keeps id 0 and `created_at` 7
through a replace. -/
theorem claim10_witness :
    ∃ q : ProfileDoc,
      update_profile { name := "A", description := "B", profile_image := "C" } 9
          seeded =
        (.ok (convert_profile q), { seeded with bio_profiles := [q] }) ∧
      q._id = 0 ∧ q.created_at = 7 ∧ q.name = "A" ∧ q.description = "B" ∧
      q.profile_image = "C" ∧ q.updated_at = 9 :=
  claim10_replace_profile_frame
    { name := "A", description := "B", profile_image := "C" } 9 seeded
    { _id := 0, name := "ZwQ", description := "Bio",
      profile_image := "https://i.pinimg.com/736x/1b/a1/3f/1ba13f9e183fb869f3999b954b25d949.jpg",
      created_at := 7, updated_at := 7 } [] (by decide)

/-- Counterexample to **C9** as stated for every store: in a store already
holding 100 links (`cexStore`), `create_link` succeeds, yet the created
link (title "T") does not appear in the `get_links` result at all — the
sort ascending by `order` followed by the 100-item cap drops it. -/
theorem claim9_counterexample :
    (create_link { title := "T", url := "https://t", icon_type := "t", order := 5 } 0
        cexStore).1 =
      .ok (convert_link (new_link { title := "T", url := "https://t", icon_type := "t", order := 5 } 0 101 0)) ∧
    ∀ x ∈ get_links
        (create_link { title := "T", url := "https://t", icon_type := "t", order := 5 } 0 cexStore).2,
      x.title ≠ "T" := by
  constructor
  · rfl
  · decide

/-- **C9 (amended).** For every store with an existing Profile, a fresh-id
invariant, and fewer than 100 stored links (the `listLinks` cap), after
`create_link` succeeds the created document appears in the `get_links`
result with `title`, `url`, `icon_type`, `order` equal to the inputs and
an identity distinct from every identity existing before the create. -/
theorem claim9_create_roundtrip (ld : SocialLinkCreate) (now : Nat) (s : Store)
    (p : ProfileDoc) (rest : List ProfileDoc)
    (hp : s.bio_profiles = p :: rest) (hwf : WF s)
    (hlen : s.social_links.length < 100) :
    create_link ld now s =
      (.ok (convert_link (new_link ld p._id s.nextId now)),
       { s with social_links := s.social_links ++ [new_link ld p._id s.nextId now],
                nextId := s.nextId + 1 }) ∧
    convert_link (new_link ld p._id s.nextId now) ∈
      get_links (create_link ld now s).2 ∧
    (new_link ld p._id s.nextId now).title = ld.title ∧
    (new_link ld p._id s.nextId now).url = ld.url ∧
    (new_link ld p._id s.nextId now).icon_type = ld.icon_type ∧
    (new_link ld p._id s.nextId now).order = ld.order ∧
    (∀ i ∈ allIds s, (new_link ld p._id s.nextId now)._id ≠ i) := by
  have hnomatch : ∀ x ∈ s.social_links,
      (fun l : LinkDoc => l._id == s.nextId) x = false := by
    intro x hx
    have hlt : x._id < s.nextId := by
      apply hwf
      exact List.mem_append_right _ (List.mem_map_of_mem (fun l => l._id) hx)
    simp [Nat.ne_of_lt hlt]
  have heq : create_link ld now s =
      (.ok (convert_link (new_link ld p._id s.nextId now)),
       { s with social_links := s.social_links ++ [new_link ld p._id s.nextId now],
                nextId := s.nextId + 1 }) := by
    unfold create_link
    rw [hp]
    dsimp only [List.head?, new_link]
    rw [find?_append_of_no_match _ _ _ hnomatch]
    rw [List.find?_cons_of_pos _ (by simp)]
  refine ⟨heq, ?_, rfl, rfl, rfl, rfl, ?_⟩
  · rw [heq]
    have hperm : (sortLinks (s.social_links ++ [new_link ld p._id s.nextId now])).Perm
        (s.social_links ++ [new_link ld p._id s.nextId now]) :=
      List.perm_insertionSort (fun a b : LinkDoc => a.order ≤ b.order) _
    have hmem : new_link ld p._id s.nextId now ∈
        sortLinks (s.social_links ++ [new_link ld p._id s.nextId now]) :=
      hperm.mem_iff.mpr (List.mem_append_right _ (List.mem_singleton_self _))
    have hlen2 : (sortLinks (s.social_links ++ [new_link ld p._id s.nextId now])).length
        ≤ 100 := by
      rw [hperm.length_eq, List.length_append, List.length_singleton]
      omega
    show convert_link (new_link ld p._id s.nextId now) ∈
      ((sortLinks (s.social_links ++ [new_link ld p._id s.nextId now])).take 100).map
        convert_link
    rw [List.take_of_length_le hlen2]
    exact List.mem_map_of_mem convert_link hmem
  · intro i hi he
    have hlt := hwf i hi
    have hne : s.nextId = i := he
    omega

/-- Witness for the amended C9 at the seeded store. -/
theorem claim9_witness :
    create_link { title := "T", url := "https://t", icon_type := "t", order := 0 } 9
        seeded =
      (.ok (convert_link (new_link { title := "T", url := "https://t", icon_type := "t", order := 0 } 0 6 9)),
       { seeded with
           social_links := seeded.social_links ++ [new_link { title := "T", url := "https://t", icon_type := "t", order := 0 } 0 6 9],
           nextId := 7 }) ∧
    convert_link (new_link { title := "T", url := "https://t", icon_type := "t", order := 0 } 0 6 9) ∈
      get_links (create_link { title := "T", url := "https://t", icon_type := "t", order := 0 } 9 seeded).2 := by
  have h := claim9_create_roundtrip
      { title := "T", url := "https://t", icon_type := "t", order := 0 } 9 seeded
      { _id := 0, name := "ZwQ", description := "Bio",
        profile_image := "https://i.pinimg.com/736x/1b/a1/3f/1ba13f9e183fb869f3999b954b25d949.jpg",
        created_at := 7, updated_at := 7 } [] (by decide) (by decide) (by decide)
  exact ⟨h.1, h.2.1⟩

/-! ## The fresh-id store invariant is preserved by the inserting
operations, so `WF` holds of every reachable store. -/

theorem WF_store0 : WF store0 := by decide

theorem WF_seeded : WF seeded := by decide

theorem WF_init_default_data (now : Nat) (s : Store) (h : WF s) :
    WF (init_default_data now s) := by
  by_cases h0 : s.bio_profiles.length = 0
  · have hnil : s.bio_profiles = [] := List.length_eq_zero.mp h0
    intro i hi
    simp only [init_default_data, hnil, List.length_nil, allIds] at hi ⊢
    simp at hi ⊢
    rcases hi with h1 | h2 | h3
    · omega
    · have := h i (by simp [allIds]; right; exact h2)
      omega
    · omega
  · intro i hi
    rw [init_default_data, if_neg h0] at hi ⊢
    exact h i hi

theorem WF_create_link (ld : SocialLinkCreate) (now : Nat) (s : Store)
    (h : WF s) : WF (create_link ld now s).2 := by
  have hno : ∀ x ∈ s.social_links,
      (fun l : LinkDoc => l._id == s.nextId) x = false := by
    intro x hx
    have hlt : x._id < s.nextId := by
      apply h
      exact List.mem_append_right _ (List.mem_map_of_mem (fun l => l._id) hx)
    simp [Nat.ne_of_lt hlt]
  cases hp : s.bio_profiles with
  | nil =>
    unfold create_link
    rw [hp]
    exact h
  | cons p rest =>
    unfold create_link
    rw [hp]
    dsimp only [List.head?, new_link]
    rw [find?_append_of_no_match _ _ _ hno]
    rw [List.find?_cons_of_pos _ (by simp)]
    intro i hi
    simp only [allIds] at hi
    show i < s.nextId + 1
    rcases List.mem_append.mp hi with hpr | hln
    · have hmem : i ∈ allIds s := List.mem_append_left _ (by rw [hp]; exact hpr)
      have := h i hmem
      omega
    · rw [List.map_append] at hln
      rcases List.mem_append.mp hln with h2 | h3
      · have hmem : i ∈ allIds s := List.mem_append_right _ h2
        have := h i hmem
        omega
      · simp at h3
        omega

end Bio
